import Mathlib

set_option maxRecDepth 8192

/-!
Verification of the `cwutils` dataset-loading utility
(`src/cwutils/datasets/_base.py`) against its specification.

The Python module is embedded shallowly:
* duck-typed Python arguments become the `PyVal` type;
* the packaged-resource environment (`importlib.resources`) becomes an
  explicit `Env` mapping module names to directory listings;
* a file's on-disk bytes are modelled by their decoded text under each
  encoding name (`views`), which is exactly the information the Python
  code observes through `open(..., encoding=...)` / `read_text(encoding=...)`;
* every Python exception becomes a constructor of `Err`, and each Python
  function that can raise becomes a function into `Except Err _`.
-/

namespace Cwutils

/-- A Python value, restricted to the kinds the module's duck-typed
arguments can take: strings, ints, module objects and `None`. -/
inductive PyVal where
  | pystr (s : String)
  | pyint (n : Int)
  | pymod (name : String)
  | pynone
deriving Repr, DecidableEq

/-- One entry in a packaged-resource directory: a regular file, a
directory, or a readable non-regular file (a special device such as
`/dev/null`).  A readable entry is modelled by its decoded text under
each encoding name — the only observation the code makes of the bytes. -/
inductive Entry where
  | file (views : List (String × String))
  | dir
  | special (views : List (String × String))
deriving Repr, DecidableEq

/-- The resource environment: module names mapped to their directory
listings, as observed through `importlib.resources.files`. -/
structure Env where
  modules : List (String × List (String × Entry))
deriving Repr, DecidableEq

/-- A resolved resource path (`resources.files(module) / file_name`). -/
structure RPath where
  modName : String
  fileName : String
deriving Repr, DecidableEq

/-- The Python exceptions the module can raise. -/
inductive Err where
  | assertionError (msg : String)
  | moduleNotFoundError (msg : String)
  | fileNotFoundError (msg : String)
  | isADirectoryError (msg : String)
  | valueError (msg : String)
  | keyError (msg : String)
  | csvError (msg : String)
  | unicodeDecodeError (msg : String)
  | parserError (msg : String)
deriving Repr, DecidableEq

/-- `resources.files(m)`: locate a module's directory listing. -/
def findModule (env : Env) (m : String) : Option (List (String × Entry)) :=
  env.modules.lookup m

/-- Look an entry up under a resolved path. -/
def findEntry (env : Env) (p : RPath) : Option Entry :=
  (findModule env p.modName).bind (fun es => es.lookup p.fileName)

/-- `isinstance(x, (str, types.ModuleType))`. -/
def isStrOrModule : PyVal → Bool
  | .pystr _ => true
  | .pymod _ => true
  | _ => false

/-- `isinstance(x, str)`. -/
def isPyStr : PyVal → Bool
  | .pystr _ => true
  | _ => false

/-- The string carried by a `str` or module value (the name
`resources.files` resolves). -/
def pyModName : PyVal → String
  | .pystr s => s
  | .pymod s => s
  | _ => ""

/-- The string carried by a Python `str` value. -/
def pyStrVal : PyVal → String
  | .pystr s => s
  | _ => ""

/-- `_return_resource(data_module, data_file_name)`.

Python functions that fall off the end return `None`; the result type is
therefore `Except Err (Option RPath)`, with every explicit `return data_path`
embedded as `.ok (.some ...)`.  The source checks, in order: the two
`isinstance` asserts, the module lookup (raising `ModuleNotFoundError`),
`data_path.exists()`, `os.path.isdir(data_path)`, `data_path.is_file()`. -/
def returnResource (env : Env) (dataModule : PyVal) (dataFileName : PyVal) :
    Except Err (Option RPath) :=
  if ¬ isStrOrModule dataModule then
    .error (.assertionError "data_module is of incorrect type!")
  else if ¬ isPyStr dataFileName then
    .error (.assertionError "data_file_name is of incorrect type!")
  else
    match findModule env (pyModName dataModule) with
    | Option.none =>
      .error (.moduleNotFoundError
        "The module not found! Make sure it is installed in your ENV.")
    | Option.some entries =>
      match entries.lookup (pyStrVal dataFileName) with
      | Option.none =>
        .error (.fileNotFoundError
          "The file at the given path does not exist!")
      | Option.some Entry.dir =>
        .error (.isADirectoryError
          "The file name you provided points to a directory!")
      | Option.some (Entry.special _) =>
        .error (.valueError "The given path does not point to a file!")
      | Option.some (Entry.file _) =>
        .ok (Option.some ⟨pyModName dataModule, pyStrVal dataFileName⟩)

/-- Open a resource for text reading and decode it, as
`path.open("r", encoding=enc)` / `path.read_text(encoding=enc)` observe it:
a missing path raises `FileNotFoundError`, a directory `IsADirectoryError`,
a readable entry yields its decoded text (a decoding failure raises
`UnicodeDecodeError`). -/
def readEntryText (env : Env) (p : RPath) (enc : String) : Except Err String :=
  match findEntry env p with
  | Option.none => .error (.fileNotFoundError p.fileName)
  | Option.some Entry.dir => .error (.isADirectoryError p.fileName)
  | Option.some (Entry.file views) | Option.some (Entry.special views) =>
    match views.lookup enc with
    | Option.some s => .ok s
    | Option.none => .error (.unicodeDecodeError enc)

/-- `csv_file.readline()` up to the newline; the trailing newline character
is irrelevant to delimiter sniffing, so it is not kept. -/
def firstLine (s : String) : String :=
  String.mk (s.data.takeWhile (fun c => c ≠ '\n'))

/-- A csv dialect: the fields of `csv.Dialect` that this pipeline's parser
observes — the delimiter, the quote character, whether whitespace right
after a delimiter is skipped, and whether a doubled quote inside a quoted
field stands for a literal quote. -/
structure Dialect where
  delimiter : Char
  quotechar : Char
  skipinitialspace : Bool
  doublequote : Bool
deriving Repr, DecidableEq

/-- The double-quote character, csv's default `quotechar`. -/
def dquote : Char := Char.ofNat 34

/-- Is every occurrence of the delimiter immediately followed by a space?
This is the sniffer's `data[0].count(delim) == data[0].count(delim + " ")`
test that decides `skipinitialspace`. -/
def delimAlwaysSpaced (d : Char) : List Char → Bool
  | [] => true
  | [c] => !(c == d)
  | c :: c2 :: cs =>
    if c == d then (c2 == ' ') && delimAlwaysSpaced d (c2 :: cs)
    else delimAlwaysSpaced d (c2 :: cs)

/-- `csv.Sniffer().sniff(first_row)`, modelled on its quote-free
`_guess_delimiter` path (the samples this pipeline sniffs carry no quote
characters): the first of csv's preferred delimiter candidates occurring
in the line wins; `skipinitialspace` is set exactly when every occurrence
of that delimiter is followed by a space (the sniffer's count test);
`doublequote` is `False` and the quote character is the default, as
`sniff` leaves them on this path.  A line containing no candidate raises
`csv.Error` ("Could not determine delimiter"). -/
def sniff (line : String) : Except Err Dialect :=
  match [',', '\t', ';', ' ', ':'].find? (fun c => line.data.contains c) with
  | Option.some c => .ok ⟨c, dquote, delimAlwaysSpaced c line.data, false⟩
  | Option.none => .error (.csvError "Could not determine delimiter")

/-- `_infer_dialect(data_path)`: open the file, read only the first line —
decoded with the hard-coded `encoding="utf-8"` — and sniff it.  (The
`isinstance` assert always passes here: the argument is the path object
produced by `_return_resource`.) -/
def inferDialect (env : Env) (p : RPath) : Except Err Dialect :=
  match readEntryText env p "utf-8" with
  | .error e => .error e
  | .ok text => sniff (firstLine text)

/-- Split one csv line into fields under a dialect (the parser's
tokenizer): `inQ` says we are inside a quoted field, `pend` that the
previous character was a quote inside a quoted field (the tokenizer's
quote-in-quoted-field state), `atStart` that we are at the start of a
field (start of record or right after a delimiter), `acc` holds the
current field reversed.  At a field start a space is skipped when the
dialect's `skipinitialspace` is set; a quote character opens or closes a
quoted region; after a quote inside a quoted field, a second quote is a
literal quote exactly when the dialect's `doublequote` is set, a
delimiter ends the field, and anything else continues the field
unquoted; an unquoted delimiter ends the field. -/
def splitFieldsAux (d : Dialect) :
    List Char → Bool → Bool → Bool → List Char → List String
  | [], _, _, _, acc => [String.mk acc.reverse]
  | c :: cs, inQ, pend, atStart, acc =>
    if pend then
      if d.doublequote && c == d.quotechar then
        splitFieldsAux d cs true false false (c :: acc)
      else if c == d.delimiter then
        String.mk acc.reverse :: splitFieldsAux d cs false false true []
      else
        splitFieldsAux d cs false false false (c :: acc)
    else if atStart && d.skipinitialspace && c == ' ' then
      splitFieldsAux d cs inQ false true acc
    else if c == d.quotechar then
      if inQ then
        splitFieldsAux d cs true true false acc
      else
        splitFieldsAux d cs true false false acc
    else if c == d.delimiter && !inQ then
      String.mk acc.reverse :: splitFieldsAux d cs false false true []
    else
      splitFieldsAux d cs inQ false false (c :: acc)

/-- Split a line into fields using a dialect. -/
def splitFields (d : Dialect) (line : String) : List String :=
  splitFieldsAux d line.data false false true []

/-- Split a character stream at newlines. -/
def splitLinesAux : List Char → List Char → List String
  | [], acc => [String.mk acc.reverse]
  | c :: cs, acc =>
    if c = '\n' then String.mk acc.reverse :: splitLinesAux cs []
    else splitLinesAux cs (c :: acc)

/-- Split a decoded file into its non-blank lines (the parser's default
`skip_blank_lines=True`). -/
def splitLines (text : String) : List String :=
  (splitLinesAux text.data []).filter (fun l => !(l == ""))

/-- An in-memory table: named columns over string cells
(`pd.DataFrame` as observed by this pipeline). -/
structure DataFrame where
  columns : List String
  rows : List (List String)
deriving Repr, DecidableEq

/-- A named column extracted from a table (`pd.Series`). -/
structure Series where
  name : String
  values : List String
deriving Repr, DecidableEq

/-- `_convert_to_dataframe(data_path, dialect=dialect, encoding=encoding)`,
i.e. `pd.read_csv`: read and decode the whole file with the caller's
encoding, use the explicit dialect or the default comma/double-quote one,
take the first line as the header, and fail with the parser's error when a
data row's field count differs from the header's or the file is empty.
The default dialect is the parser's: comma delimiter, default quote
character, `skipinitialspace=False`, `doublequote=True`. -/
def convertToDataframe (env : Env) (p : RPath) (dialect : Option Dialect)
    (enc : String) : Except Err DataFrame :=
  match readEntryText env p enc with
  | .error e => .error e
  | .ok text =>
    let d := dialect.getD ⟨',', dquote, false, true⟩
    match splitLines text with
    | [] => .error (.parserError "No columns to parse from file")
    | header :: rest =>
      let cols := splitFields d header
      let rows := rest.map (splitFields d)
      if rows.all (fun r => r.length == cols.length) then
        .ok ⟨cols, rows⟩
      else
        .error (.parserError "Error tokenizing data")

/-- Python truthiness (`if target:`): `None`, `0` and `""` are falsy. -/
def truthy : PyVal → Bool
  | .pystr s => !(s == "")
  | .pyint n => !(n == 0)
  | .pymod _ => true
  | .pynone => false

/-- Does the label `t` name a column of `df`?  The parsed table's column
labels are strings (they come from the csv header), so an `int` or `None`
label never matches. -/
def hasLabel (df : DataFrame) (t : PyVal) : Bool :=
  match t with
  | .pystr s => df.columns.contains s
  | _ => false

/-- Position of the column labelled `s`, if any. -/
def colIdx (s : String) : List String → Option Nat
  | [] => Option.none
  | c :: cs => if c == s then Option.some 0 else (colIdx s cs).map (· + 1)

/-- `pd.Series(df.loc[:, target])`: label-based column selection.  `.loc`
is strictly label-based, so an `int` or `None` target is looked up as a
column label, which the string-labelled columns never contain, and raises
`KeyError`. -/
def locColumn (df : DataFrame) (target : PyVal) : Except Err Series :=
  match target with
  | .pystr s =>
    match colIdx s df.columns with
    | Option.some i => .ok ⟨s, df.rows.map (fun r => r.getD i "")⟩
    | Option.none => .error (.keyError s)
  | _ => .error (.keyError "label")

/-- `df.drop(target, axis=1)`: remove the column with the given label,
raising `KeyError` when no column carries it. -/
def dropColumn (df : DataFrame) (target : PyVal) : Except Err DataFrame :=
  match target with
  | .pystr s =>
    match colIdx s df.columns with
    | Option.some i =>
      .ok ⟨df.columns.eraseIdx i, df.rows.map (fun r => r.eraseIdx i)⟩
    | Option.none => .error (.keyError s)
  | _ => .error (.keyError "label")

/-- `load_descr(descr_file_name, descr_module=..., encoding=...)`:
`resources.files(descr_module)` (raising `ModuleNotFoundError` when the
module is missing) followed directly by `path.read_text(encoding)` — the
function does not go through `_return_resource`. -/
def loadDescr (env : Env) (descrFileName : String) (descrModule : PyVal)
    (enc : String) : Except Err String :=
  match findModule env (pyModName descrModule) with
  | Option.none => .error (.moduleNotFoundError "descr module not found")
  | Option.some _ =>
    readEntryText env ⟨pyModName descrModule, descrFileName⟩ enc

/-- The assembler's normalization of the sniffed dialect:
`dialect = None if dialect.delimiter == "," else dialect`. -/
def normalizeDialect (d : Dialect) : Option Dialect :=
  if d.delimiter = ',' then Option.none else Option.some d

/-- The four shapes `load_csv_data` can return: the tuple
`(df)`, `(df, descr)`, `(features, target)` or `(features, target, descr)`. -/
inductive LoadResult where
  | table (df : DataFrame)
  | tableDescr (df : DataFrame) (descr : String)
  | split (features : DataFrame) (tgt : Series)
  | splitDescr (features : DataFrame) (tgt : Series) (descr : String)
deriving Repr, DecidableEq

/-- Which of the four shapes a result has, as the pair
`(did it separate a target, does it carry a description)`. -/
def shapeOf : LoadResult → Bool × Bool
  | .table _ => (false, false)
  | .tableDescr _ _ => (false, true)
  | .split _ _ => (true, false)
  | .splitDescr _ _ _ => (true, true)

/-- The body of the `try:` block of `load_csv_data`'s `separate_target`
branch: select the target column, then either return
`(df.drop(target), target_series)` or additionally assert
`descr_module is not None`, load the description and return the triple.
(`df.drop` is evaluated after `load_descr` in the source's `return`
statements, hence the order here.) -/
def separatePart (env : Env) (df : DataFrame) (target : PyVal)
    (descrFileName : Option String) (descrModule : PyVal) :
    Except Err LoadResult :=
  match locColumn df target with
  | .error e => .error e
  | .ok tser =>
    match descrFileName with
    | Option.none =>
      match dropColumn df target with
      | .error e => .error e
      | .ok feats => .ok (.split feats tser)
    | Option.some dfn =>
      if descrModule == PyVal.pynone then
        .error (.assertionError "descr_module is None")
      else
        match loadDescr env dfn descrModule "utf-8" with
        | .error e => .error e
        | .ok descr =>
          match dropColumn df target with
          | .error e => .error e
          | .ok feats => .ok (.splitDescr feats tser descr)

/-- `load_csv_data(data_file_name, target, *, data_module, descr_file_name,
descr_module, separate_target, encoding)`.

The pipeline of the source, in order: `_return_resource`, `_infer_dialect`
(note: no encoding is passed to it), the comma-dialect normalization,
`_convert_to_dataframe` with the caller's encoding, the
`if target: if isinstance(target, str): assert target in df.columns` check,
then either the `separate_target` branch — whose `try/except KeyError`
re-raises any `KeyError` with a fixed message — or the plain branch that
returns the table, with the description appended when `descr_file_name`
is given (`load_descr` is called without the caller's encoding, so it
reads with its default `utf-8`). -/
def loadCsvData (env : Env) (dataFileName : String) (target : PyVal)
    (dataModule : PyVal) (descrFileName : Option String)
    (descrModule : PyVal) (separateTarget : Bool) (encoding : String) :
    Except Err LoadResult :=
  match returnResource env dataModule (PyVal.pystr dataFileName) with
  | .error e => .error e
  | .ok pOpt =>
    match inferDialect env (pOpt.getD ⟨"", ""⟩) with
    | .error e => .error e
    | .ok d =>
      match convertToDataframe env (pOpt.getD ⟨"", ""⟩)
          (normalizeDialect d) encoding with
      | .error e => .error e
      | .ok df =>
        if truthy target && isPyStr target
            && !(df.columns.contains (pyStrVal target)) then
          .error (.assertionError
            "target is not in the columns of the dataset!")
        else if separateTarget then
          match separatePart env df target descrFileName descrModule with
          | .error (.keyError _) =>
            .error (.keyError
              "Specified target name is not in the columns of the dataset.")
          | r => r
        else
          match descrFileName with
          | Option.none => .ok (.table df)
          | Option.some dfn =>
            match loadDescr env dfn descrModule "utf-8" with
            | .error e => .error e
            | .ok descr => .ok (.tableDescr df descr)

/-! Concrete resource environments used to exercise the pipeline. -/

/-- A small `iris.csv` (five string-named columns, the header first). -/
def irisCsv : String :=
  "sepal_length,sepal_width,petal_length,petal_width,species\n5.1,3.5,1.4,0.2,setosa\n4.9,3.0,1.4,0.2,setosa"

/-- A small `advertising.csv` with columns `[sales, tv, radio]`. -/
def advCsv : String :=
  "sales,tv,radio\n22.1,230.1,37.8\n10.4,44.5,39.3"

/-- A resource environment with the package's data and descr modules: two
csv files, a description file, and a readable non-regular entry
(modelled on a special device whose read yields the empty string). -/
def demoEnv : Env :=
  ⟨[("cwutils.datasets.data",
      [("iris.csv", Entry.file [("utf-8", irisCsv)]),
       ("advertising.csv", Entry.file [("utf-8", advCsv)])]),
    ("cwutils.datasets.descr",
      [("iris.rst", Entry.file [("utf-8", "Iris dataset description")]),
       ("dev.null", Entry.special [("utf-8", "")])])]⟩

/-- The table `iris.csv` parses to. -/
def irisDf : DataFrame :=
  ⟨["sepal_length", "sepal_width", "petal_length", "petal_width", "species"],
   [["5.1", "3.5", "1.4", "0.2", "setosa"],
    ["4.9", "3.0", "1.4", "0.2", "setosa"]]⟩

/-- An environment whose file decodes to a comma-delimited first line under
utf-8 but to a semicolon-delimited one under latin-1. -/
def envUtfComma : Env :=
  ⟨[("m7", [("f.csv",
      Entry.file [("utf-8", "a,b\n1,2"), ("latin-1", "a;b\n1;2")])])]⟩

/-- An environment identical to `envUtfComma` under latin-1 but whose
utf-8 decoding is semicolon-delimited. -/
def envUtfSemi : Env :=
  ⟨[("m7", [("f.csv",
      Entry.file [("utf-8", "a;b\n1;2"), ("latin-1", "a;b\n1;2")])])]⟩

/-- An environment whose csv has a space after every comma, so the sniffer
sets `skipinitialspace` on the inferred comma dialect. -/
def envSkipSpace : Env :=
  ⟨[("m5", [("sp.csv", Entry.file [("utf-8", "a, b\n1, 2")])])]⟩

/-! Helper lemmas shared by the claim theorems. -/

/-- A label not contained in the column list has no position. -/
theorem colIdx_eq_none_of_contains_false (l : List String) (s : String)
    (h : l.contains s = false) : colIdx s l = Option.none := by
  induction l with
  | nil => rfl
  | cons a t ih =>
    simp only [List.contains_cons, Bool.or_eq_false_iff] at h
    have has : (a == s) = false := by
      have h1 := h.1
      simp only [beq_eq_false_iff_ne] at h1 ⊢
      exact fun hh => h1 hh.symm
    simp [colIdx, has, ih h.2]

/-- Reduction of `loadCsvData` once the three pipeline stages — resource
resolution, dialect inference, parsing — are known to succeed. -/
theorem loadCsvData_pipeline (env : Env) (dfn : String) (target : PyVal)
    (dm : PyVal) (descrFn : Option String) (dmod : PyVal) (sep : Bool)
    (enc : String) (p : RPath) (d : Dialect) (df : DataFrame)
    (h1 : returnResource env dm (PyVal.pystr dfn) = Except.ok (Option.some p))
    (h2 : inferDialect env p = Except.ok d)
    (h3 : convertToDataframe env p (normalizeDialect d) enc = Except.ok df) :
    loadCsvData env dfn target dm descrFn dmod sep enc =
      if truthy target && isPyStr target
          && !(df.columns.contains (pyStrVal target)) then
        Except.error (Err.assertionError
          "target is not in the columns of the dataset!")
      else if sep then
        match separatePart env df target descrFn dmod with
        | .error (.keyError _) =>
          Except.error (Err.keyError
            "Specified target name is not in the columns of the dataset.")
        | r => r
      else
        match descrFn with
        | Option.none => Except.ok (.table df)
        | Option.some dfn2 =>
          match loadDescr env dfn2 dmod "utf-8" with
          | .error e => Except.error e
          | .ok descr => Except.ok (.tableDescr df descr) := by
  unfold loadCsvData
  simp only [h1, h2, h3, Option.getD]

/-! The claim theorems. -/

/-- C9: `_return_resource` either raises or returns the resolved path; it
never takes Python's implicit fall-off-the-end `return None` — despite the
docstring's "Otherwise returns `None`", every non-success branch raises. -/
theorem returnResource_never_none (env : Env) (dm fn : PyVal) :
    returnResource env dm fn ≠ Except.ok Option.none := by
  unfold returnResource
  by_cases h1 : isStrOrModule dm = true
  · by_cases h2 : isPyStr fn = true
    · simp only [h1, h2, not_true, if_false, ite_false]
      cases hm : findModule env (pyModName dm) with
      | none => simp
      | some es =>
        cases hl : es.lookup (pyStrVal fn) with
        | none => simp [hl]
        | some e => cases e <;> simp [hl]
    · simp [h1, h2]
  · simp [h1]

/-- C1: contrary to the claim, an integer `target` is never validated
against `0 <= index < columnCount` nor resolved to a column name:
`load_csv_data("iris.csv", target=4, separate_target=True)` uses `4` as a
column *label* in `df.loc` and raises `KeyError`, while the same call with
the column's name `"species"` succeeds — the code contradicts its own test
`test_correct_target_idx` and its docstring ("Name or the index of the
target column"). -/
theorem loadCsvData_int_target_not_resolved :
    loadCsvData demoEnv "iris.csv" (PyVal.pyint 4)
        (PyVal.pystr "cwutils.datasets.data") Option.none
        (PyVal.pystr "cwutils.datasets.descr") true "utf-8"
      = Except.error (Err.keyError
          "Specified target name is not in the columns of the dataset.")
    ∧ loadCsvData demoEnv "iris.csv" (PyVal.pystr "species")
        (PyVal.pystr "cwutils.datasets.data") Option.none
        (PyVal.pystr "cwutils.datasets.descr") true "utf-8"
      = Except.ok (LoadResult.split
          ⟨["sepal_length", "sepal_width", "petal_length", "petal_width"],
           [["5.1", "3.5", "1.4", "0.2"], ["4.9", "3.0", "1.4", "0.2"]]⟩
          ⟨"species", ["setosa", "setosa"]⟩) :=
  ⟨rfl, rfl⟩

/-- C6: full characterization of `_return_resource`: the outcome is exactly
one of TypeMismatch (`AssertionError`), `ModuleNotFoundError`,
`FileNotFoundError`, `IsADirectoryError`, `ValueError` or success, and each
fires precisely when all the earlier checks pass and its own condition
holds — i.e. the checks apply in that order. -/
theorem returnResource_error_taxonomy (env : Env) (dm fn : PyVal) :
    ((∃ m, returnResource env dm fn = Except.error (Err.assertionError m)) ↔
      (isStrOrModule dm = false ∨ isPyStr fn = false))
  ∧ ((∃ m, returnResource env dm fn
        = Except.error (Err.moduleNotFoundError m)) ↔
      (isStrOrModule dm = true ∧ isPyStr fn = true ∧
        findModule env (pyModName dm) = Option.none))
  ∧ ((∃ m, returnResource env dm fn
        = Except.error (Err.fileNotFoundError m)) ↔
      (isStrOrModule dm = true ∧ isPyStr fn = true ∧
        (findModule env (pyModName dm)).isSome = true ∧
        findEntry env ⟨pyModName dm, pyStrVal fn⟩ = Option.none))
  ∧ ((∃ m, returnResource env dm fn
        = Except.error (Err.isADirectoryError m)) ↔
      (isStrOrModule dm = true ∧ isPyStr fn = true ∧
        findEntry env ⟨pyModName dm, pyStrVal fn⟩ = Option.some Entry.dir))
  ∧ ((∃ m, returnResource env dm fn = Except.error (Err.valueError m)) ↔
      (isStrOrModule dm = true ∧ isPyStr fn = true ∧ ∃ v,
        findEntry env ⟨pyModName dm, pyStrVal fn⟩
          = Option.some (Entry.special v)))
  ∧ ((∃ q, returnResource env dm fn = Except.ok q) ↔
      (isStrOrModule dm = true ∧ isPyStr fn = true ∧ ∃ v,
        findEntry env ⟨pyModName dm, pyStrVal fn⟩
          = Option.some (Entry.file v))) := by
  have hfe : findEntry env ⟨pyModName dm, pyStrVal fn⟩
      = (findModule env (pyModName dm)).bind
          (fun es => es.lookup (pyStrVal fn)) := rfl
  unfold returnResource
  rw [hfe]
  by_cases hdm : isStrOrModule dm = true
  · by_cases hfn : isPyStr fn = true
    · simp only [hdm, hfn, not_true, ite_false, if_false]
      cases hm : findModule env (pyModName dm) with
      | none => simp [hdm, hfn]
      | some es =>
        cases hl : es.lookup (pyStrVal fn) with
        | none => simp [hdm, hfn, hl]
        | some e => cases e <;> simp [hdm, hfn, hl]
    · have hfn2 : isPyStr fn = false := by
        simpa using hfn
      simp [hdm, hfn2]
  · have hdm2 : isStrOrModule dm = false := by
      simpa using hdm
    simp [hdm2]

/-- C2: with `separate_target=True`, a call whose target label is absent
from the parsed table's columns fails with the TargetNotFound signal — the
`AssertionError` of step 4's name check for truthy string targets, or the
`KeyError` re-raised by the extraction step — and this also covers targets
the step-4 name branch never checked (empty strings, ints, `None`,
modules). -/
theorem loadCsvData_absent_target_fails (env : Env) (dfn : String)
    (target : PyVal) (dm : PyVal) (descrFn : Option String) (dmod : PyVal)
    (enc : String) (p : RPath) (d : Dialect) (df : DataFrame)
    (h1 : returnResource env dm (PyVal.pystr dfn) = Except.ok (Option.some p))
    (h2 : inferDialect env p = Except.ok d)
    (h3 : convertToDataframe env p (normalizeDialect d) enc = Except.ok df)
    (h4 : hasLabel df target = false) :
    loadCsvData env dfn target dm descrFn dmod true enc
      = Except.error (Err.assertionError
          "target is not in the columns of the dataset!")
    ∨ loadCsvData env dfn target dm descrFn dmod true enc
      = Except.error (Err.keyError
          "Specified target name is not in the columns of the dataset.") := by
  rw [loadCsvData_pipeline env dfn target dm descrFn dmod true enc p d df
    h1 h2 h3]
  cases target with
  | pystr s =>
    have hc : df.columns.contains s = false := by simpa [hasLabel] using h4
    have hci : colIdx s df.columns = Option.none :=
      colIdx_eq_none_of_contains_false _ _ hc
    have hmem : s ∉ df.columns := by simpa using hc
    by_cases hs : s = ""
    · subst hs
      right
      simp [truthy, isPyStr, pyStrVal, separatePart, locColumn, hci, hc]
    · left
      simp [truthy, isPyStr, pyStrVal, hc, hs, hmem]
  | pyint n =>
    right
    simp [truthy, isPyStr, separatePart, locColumn]
  | pymod m =>
    right
    simp [truthy, isPyStr, separatePart, locColumn]
  | pynone =>
    right
    simp [truthy, isPyStr, separatePart, locColumn]

/-- C3: on a table with columns `[sales, tv, radio]`, `target="sales"` and
`separate_target=True` return the features with columns `[tv, radio]`
(other columns' values untouched) and a target series equal
element-for-element to the original sales column. -/
theorem loadCsvData_sales_split (env : Env) (dfn : String) (dm dmod : PyVal)
    (enc : String) (p : RPath) (d : Dialect) (rows : List (List String))
    (h1 : returnResource env dm (PyVal.pystr dfn) = Except.ok (Option.some p))
    (h2 : inferDialect env p = Except.ok d)
    (h3 : convertToDataframe env p (normalizeDialect d) enc
            = Except.ok ⟨["sales", "tv", "radio"], rows⟩) :
    loadCsvData env dfn (PyVal.pystr "sales") dm Option.none dmod true enc
      = Except.ok (LoadResult.split
          ⟨["tv", "radio"], rows.map (fun r => r.eraseIdx 0)⟩
          ⟨"sales", rows.map (fun r => r.getD 0 "")⟩) := by
  rw [loadCsvData_pipeline env dfn (PyVal.pystr "sales") dm Option.none dmod
    true enc p d _ h1 h2 h3]
  simp [truthy, isPyStr, pyStrVal, separatePart, locColumn, dropColumn,
    colIdx, List.contains_cons]

/-- C10: with `separate_target=True` and `target=None`, once the table is
parsed the call always fails with the target-missing `KeyError` — it never
silently returns the un-split table. -/
theorem loadCsvData_none_target_separate_fails (env : Env) (dfn : String)
    (dm : PyVal) (descrFn : Option String) (dmod : PyVal) (enc : String)
    (p : RPath) (d : Dialect) (df : DataFrame)
    (h1 : returnResource env dm (PyVal.pystr dfn) = Except.ok (Option.some p))
    (h2 : inferDialect env p = Except.ok d)
    (h3 : convertToDataframe env p (normalizeDialect d) enc = Except.ok df) :
    loadCsvData env dfn PyVal.pynone dm descrFn dmod true enc
      = Except.error (Err.keyError
          "Specified target name is not in the columns of the dataset.") := by
  rw [loadCsvData_pipeline env dfn PyVal.pynone dm descrFn dmod true enc
    p d df h1 h2 h3]
  simp [truthy, isPyStr, separatePart, locColumn]

/-- C4: every successful `load_csv_data` call returns exactly one of the
four shapes, and which one is determined solely by the pair
`(separate_target, descr_file_name is not None)`. -/
theorem loadCsvData_shape (env : Env) (dfn : String) (target dm : PyVal)
    (descrFn : Option String) (dmod : PyVal) (sep : Bool) (enc : String)
    (r : LoadResult)
    (h : loadCsvData env dfn target dm descrFn dmod sep enc = Except.ok r) :
    shapeOf r = (sep, descrFn.isSome) := by
  unfold loadCsvData separatePart at h
  repeat' split at h
  all_goals first
    | exact (Except.noConfusion h)
    | (injection h with h2; subst h2; simp_all [shapeOf])

/-- Over a quote-free character stream the tokenizer never reaches a state
reading the dialect's `doublequote` flag. -/
theorem splitFieldsAux_doublequote_irrelevant (de q : Char) (sk b1 b2 : Bool)
    (l : List Char) :
    ∀ (inQ atStart : Bool) (acc : List Char), q ∉ l →
      splitFieldsAux ⟨de, q, sk, b1⟩ l inQ false atStart acc
        = splitFieldsAux ⟨de, q, sk, b2⟩ l inQ false atStart acc := by
  induction l with
  | nil =>
    intro inQ atStart acc _
    rfl
  | cons c cs ih =>
    intro inQ atStart acc h
    have hcq : (c == q) = false := by
      simp only [beq_eq_false_iff_ne]
      intro he
      exact h (he ▸ List.mem_cons_self c cs)
    have hcs : q ∉ cs := fun hm => h (List.mem_cons_of_mem c hm)
    simp only [splitFieldsAux, hcq, Bool.false_eq_true, if_false]
    rw [ih inQ true acc hcs, ih false true [] hcs,
      ih inQ false (c :: acc) hcs]

/-- Every string `splitLinesAux` produces from a quote-free stream and a
quote-free accumulator is quote-free. -/
theorem splitLinesAux_no_char (q : Char) :
    ∀ (cs acc : List Char), q ∉ cs → q ∉ acc →
      ∀ l ∈ splitLinesAux cs acc, q ∉ l.data := by
  intro cs
  induction cs with
  | nil =>
    intro acc _ hacc l hl
    simp only [splitLinesAux, List.mem_singleton] at hl
    subst hl
    simpa using hacc
  | cons c cs ih =>
    intro acc hcs hacc l hl
    have hc : ¬ q = c := fun he => hcs (he ▸ List.mem_cons_self c cs)
    have hcs2 : q ∉ cs := fun hm => hcs (List.mem_cons_of_mem c hm)
    simp only [splitLinesAux] at hl
    by_cases hn : c = '\n'
    · rw [if_pos hn] at hl
      rcases List.mem_cons.mp hl with hl1 | hl2
      · subst hl1
        simpa using hacc
      · exact ih [] hcs2 (List.not_mem_nil q) l hl2
    · rw [if_neg hn] at hl
      refine ih (c :: acc) hcs2 ?_ l hl
      intro hm
      rcases List.mem_cons.mp hm with h1 | h2
      · exact hc h1
      · exact hacc h2

/-- Every line `splitLines` produces from a quote-free text is
quote-free. -/
theorem splitLines_no_char (q : Char) (text : String) (h : q ∉ text.data) :
    ∀ l ∈ splitLines text, q ∉ l.data := by
  intro l hl
  exact splitLinesAux_no_char q text.data [] h (List.not_mem_nil q) l
    (List.mem_of_mem_filter hl)

/-- On a quote-free text, parsing with `doublequote` cleared equals
parsing with it set, the other dialect fields being equal. -/
theorem convertToDataframe_doublequote_irrelevant (env : Env) (p : RPath)
    (enc : String) (de : Char) (sk b1 b2 : Bool) (text : String)
    (hread : readEntryText env p enc = Except.ok text)
    (hq : dquote ∉ text.data) :
    convertToDataframe env p (Option.some ⟨de, dquote, sk, b1⟩) enc
      = convertToDataframe env p (Option.some ⟨de, dquote, sk, b2⟩) enc := by
  unfold convertToDataframe
  rw [hread]
  simp only [Option.getD]
  have hlines := splitLines_no_char dquote text hq
  cases hls : splitLines text with
  | nil => simp [hls]
  | cons header rest =>
    have hh : dquote ∉ header.data :=
      hlines header (hls ▸ List.mem_cons_self header rest)
    have hcols : splitFields ⟨de, dquote, sk, b1⟩ header
        = splitFields ⟨de, dquote, sk, b2⟩ header :=
      splitFieldsAux_doublequote_irrelevant de dquote sk b1 b2 header.data
        false true [] hh
    have hrows : rest.map (splitFields ⟨de, dquote, sk, b1⟩)
        = rest.map (splitFields ⟨de, dquote, sk, b2⟩) := by
      apply List.map_congr_left
      intro a ha
      exact splitFieldsAux_doublequote_irrelevant de dquote sk b1 b2 a.data
        false true [] (hlines a (hls ▸ List.mem_cons_of_mem header ha))
    simp [hls, hcols, hrows]

/-- C5 counterexample: parsing with an inferred comma dialect is not in
general equivalent to parsing with no dialect.  On the first line `a, b`
the sniffer infers a comma dialect with `skipinitialspace=True`; the
assembler normalizes it away, and the default parse keeps the space
(`[a, " b"]`) while the parse with the inferred dialect strips it
(`[a, b]`). -/
theorem comma_dialect_parse_not_default :
    sniff "a, b" = Except.ok ⟨',', dquote, true, false⟩
    ∧ normalizeDialect ⟨',', dquote, true, false⟩ = Option.none
    ∧ convertToDataframe envSkipSpace ⟨"m5", "sp.csv"⟩ Option.none "utf-8"
        = Except.ok ⟨["a", " b"], [["1", " 2"]]⟩
    ∧ convertToDataframe envSkipSpace ⟨"m5", "sp.csv"⟩
        (Option.some ⟨',', dquote, true, false⟩) "utf-8"
        = Except.ok ⟨["a", "b"], [["1", "2"]]⟩
    ∧ (⟨["a", " b"], [["1", " 2"]]⟩ : DataFrame) ≠ ⟨["a", "b"], [["1", "2"]]⟩ :=
  ⟨rfl, rfl, rfl, rfl, by decide⟩

/-- C5 amended: the Dataset Assembler normalizes a comma-delimiter dialect
to "no explicit dialect" and passes every other inferred dialect through;
parsing with an inferred comma dialect equals parsing with no dialect when
the sniffed dialect did not set `skipinitialspace` and the file is
quote-free — not in general, as the counterexample shows. -/
theorem convert_comma_dialect_default (env : Env) (p : RPath) (enc : String)
    (line text : String) (d : Dialect)
    (h : sniff line = Except.ok d)
    (hskip : d.skipinitialspace = false)
    (hread : readEntryText env p enc = Except.ok text)
    (hq : dquote ∉ text.data) :
    (normalizeDialect d = Option.none ↔ d.delimiter = ',')
    ∧ convertToDataframe env p (normalizeDialect d) enc
        = convertToDataframe env p (Option.some d) enc := by
  have hqd : d.quotechar = dquote ∧ d.doublequote = false := by
    unfold sniff at h
    split at h
    · injection h with h2
      rw [← h2]
      exact ⟨rfl, rfl⟩
    · exact (Except.noConfusion h)
  constructor
  · unfold normalizeDialect
    by_cases hd : d.delimiter = ',' <;> simp [hd]
  · by_cases hd : d.delimiter = ','
    · have hd2 : d = ⟨',', dquote, false, false⟩ := by
        cases d with
        | mk de qu sk db =>
          simp only [Dialect.mk.injEq]
          exact ⟨hd, hqd.1, hskip, hqd.2⟩
      rw [hd2]
      show convertToDataframe env p Option.none enc
        = convertToDataframe env p (Option.some ⟨',', dquote, false, false⟩) enc
      have hdefault : convertToDataframe env p Option.none enc
          = convertToDataframe env p
              (Option.some ⟨',', dquote, false, true⟩) enc := rfl
      rw [hdefault]
      exact convertToDataframe_doublequote_irrelevant env p enc ',' false
        true false text hread hq
    · unfold normalizeDialect
      rw [if_neg hd]

/-- C7 counterexample: the caller-specified encoding does not govern the
decoding used during dialect inference.  Two environments whose latin-1
decodings of the (only) resource agree — they differ only in the utf-8
decoding — give different `load_csv_data` results under
`encoding="latin-1"`: the inferred delimiter follows the utf-8 first line
(comma vs. semicolon), not the latin-1 one. -/
theorem inferDialect_ignores_caller_encoding :
    readEntryText envUtfComma ⟨"m7", "f.csv"⟩ "latin-1"
      = readEntryText envUtfSemi ⟨"m7", "f.csv"⟩ "latin-1"
    ∧ loadCsvData envUtfComma "f.csv" PyVal.pynone (PyVal.pystr "m7")
        Option.none (PyVal.pystr "d7") false "latin-1"
      = Except.ok (.table ⟨["a;b"], [["1;2"]]⟩)
    ∧ loadCsvData envUtfSemi "f.csv" PyVal.pynone (PyVal.pystr "m7")
        Option.none (PyVal.pystr "d7") false "latin-1"
      = Except.ok (.table ⟨["a", "b"], [["1", "2"]]⟩)
    ∧ LoadResult.table ⟨["a;b"], [["1;2"]]⟩
        ≠ LoadResult.table ⟨["a", "b"], [["1", "2"]]⟩ :=
  ⟨rfl, rfl, rfl, by decide⟩

/-- C7 amended: the Dialect Sniffer reads only the first line of the
resource, always decoded with utf-8: the inference result equals sniffing
the first line of the utf-8 decoding, and any two environments whose utf-8
decodings share that first line infer the same dialect — the caller's
encoding argument plays no role here. -/
theorem inferDialect_first_line_utf8 (env env2 : Env) (p : RPath)
    (t t2 : String)
    (h1 : readEntryText env p "utf-8" = Except.ok t)
    (h2 : readEntryText env2 p "utf-8" = Except.ok t2)
    (h3 : firstLine t = firstLine t2) :
    inferDialect env p = sniff (firstLine t)
    ∧ inferDialect env p = inferDialect env2 p := by
  constructor
  · unfold inferDialect
    rw [h1]
  · unfold inferDialect
    rw [h1, h2]
    show sniff (firstLine t) = sniff (firstLine t2)
    rw [h3]

/-- C8 counterexample: the description resource is not located via the
Resource Resolver.  On a readable non-regular entry the resolver fails
with the ResourceNotAFile `ValueError`, yet `load_csv_data` — whose
`load_descr` reads the path directly — succeeds and returns the read
content. -/
theorem loadDescr_skips_resource_validation :
    returnResource demoEnv (PyVal.pystr "cwutils.datasets.descr")
        (PyVal.pystr "dev.null")
      = Except.error (Err.valueError
          "The given path does not point to a file!")
    ∧ loadCsvData demoEnv "iris.csv" PyVal.pynone
        (PyVal.pystr "cwutils.datasets.data") (Option.some "dev.null")
        (PyVal.pystr "cwutils.datasets.descr") false "utf-8"
      = Except.ok (.tableDescr irisDf "") :=
  ⟨rfl, rfl⟩

/-- C8 amended: with `descrFileName` given (plain-table path shown), the
description is loaded by reading the resource directly — without the
Resource Resolver's validation — so the call's outcome is exactly that of
the raw text read: a missing file still fails with `FileNotFoundError`, a
directory with `IsADirectoryError`, and otherwise the decoded content is
returned verbatim as the Description. -/
theorem loadCsvData_descr_raw_read (env : Env) (dfn : String)
    (dm dmod : PyVal) (dd : String) (enc : String) (p : RPath) (d : Dialect)
    (df : DataFrame) (es : List (String × Entry))
    (h1 : returnResource env dm (PyVal.pystr dfn) = Except.ok (Option.some p))
    (h2 : inferDialect env p = Except.ok d)
    (h3 : convertToDataframe env p (normalizeDialect d) enc = Except.ok df)
    (h4 : findModule env (pyModName dmod) = Option.some es) :
    loadCsvData env dfn PyVal.pynone dm (Option.some dd) dmod false enc
      = match readEntryText env ⟨pyModName dmod, dd⟩ "utf-8" with
        | .ok s => Except.ok (.tableDescr df s)
        | .error e => Except.error e := by
  rw [loadCsvData_pipeline env dfn PyVal.pynone dm (Option.some dd) dmod
    false enc p d df h1 h2 h3]
  unfold loadDescr
  rw [h4]
  cases hr : readEntryText env ⟨pyModName dmod, dd⟩ "utf-8" with
  | ok s => simp [truthy, isPyStr, hr]
  | error e => simp [truthy, isPyStr, hr]

/-! Witnesses: the hypothesis-bearing theorems applied at concrete inputs. -/

/-- Witness for C2 at `target="doesnotexist"` on the demo environment. -/
theorem loadCsvData_absent_target_fails_witness :
    loadCsvData demoEnv "iris.csv" (PyVal.pystr "doesnotexist")
        (PyVal.pystr "cwutils.datasets.data") Option.none
        (PyVal.pystr "cwutils.datasets.descr") true "utf-8"
      = Except.error (Err.assertionError
          "target is not in the columns of the dataset!")
    ∨ loadCsvData demoEnv "iris.csv" (PyVal.pystr "doesnotexist")
        (PyVal.pystr "cwutils.datasets.data") Option.none
        (PyVal.pystr "cwutils.datasets.descr") true "utf-8"
      = Except.error (Err.keyError
          "Specified target name is not in the columns of the dataset.") :=
  loadCsvData_absent_target_fails demoEnv "iris.csv"
    (PyVal.pystr "doesnotexist") (PyVal.pystr "cwutils.datasets.data")
    Option.none (PyVal.pystr "cwutils.datasets.descr") "utf-8"
    ⟨"cwutils.datasets.data", "iris.csv"⟩ ⟨',', dquote, false, false⟩ irisDf
    rfl rfl rfl rfl

/-- Witness for C3 on the advertising table of the demo environment. -/
theorem loadCsvData_sales_split_witness :
    loadCsvData demoEnv "advertising.csv" (PyVal.pystr "sales")
        (PyVal.pystr "cwutils.datasets.data") Option.none
        (PyVal.pystr "cwutils.datasets.descr") true "utf-8"
      = Except.ok (LoadResult.split
          ⟨["tv", "radio"], [["230.1", "37.8"], ["44.5", "39.3"]]⟩
          ⟨"sales", ["22.1", "10.4"]⟩) :=
  loadCsvData_sales_split demoEnv "advertising.csv"
    (PyVal.pystr "cwutils.datasets.data")
    (PyVal.pystr "cwutils.datasets.descr") "utf-8"
    ⟨"cwutils.datasets.data", "advertising.csv"⟩ ⟨',', dquote, false, false⟩
    [["22.1", "230.1", "37.8"], ["10.4", "44.5", "39.3"]]
    rfl rfl rfl

/-- Witness for C4 on the species-splitting call of the demo environment. -/
theorem loadCsvData_shape_witness :
    shapeOf (LoadResult.split
        ⟨["sepal_length", "sepal_width", "petal_length", "petal_width"],
         [["5.1", "3.5", "1.4", "0.2"], ["4.9", "3.0", "1.4", "0.2"]]⟩
        ⟨"species", ["setosa", "setosa"]⟩) = (true, false) :=
  loadCsvData_shape demoEnv "iris.csv" (PyVal.pystr "species")
    (PyVal.pystr "cwutils.datasets.data") Option.none
    (PyVal.pystr "cwutils.datasets.descr") true "utf-8"
    (LoadResult.split
      ⟨["sepal_length", "sepal_width", "petal_length", "petal_width"],
       [["5.1", "3.5", "1.4", "0.2"], ["4.9", "3.0", "1.4", "0.2"]]⟩
      ⟨"species", ["setosa", "setosa"]⟩) rfl

/-- Witness for the amended C5 at the comma dialect sniffed from the line
`a,b` (no space after the comma, so `skipinitialspace` is clear), on the
quote-free iris resource of the demo environment. -/
theorem convert_comma_dialect_default_witness :
    (normalizeDialect ⟨',', dquote, false, false⟩ = Option.none ↔
      Dialect.delimiter ⟨',', dquote, false, false⟩ = ',')
    ∧ convertToDataframe demoEnv ⟨"cwutils.datasets.data", "iris.csv"⟩
        (normalizeDialect ⟨',', dquote, false, false⟩) "utf-8"
      = convertToDataframe demoEnv ⟨"cwutils.datasets.data", "iris.csv"⟩
        (Option.some ⟨',', dquote, false, false⟩) "utf-8" :=
  convert_comma_dialect_default demoEnv
    ⟨"cwutils.datasets.data", "iris.csv"⟩ "utf-8" "a,b" irisCsv
    ⟨',', dquote, false, false⟩ rfl rfl rfl (by decide)

/-- Witness for the amended C7 on the demo environment's iris resource. -/
theorem inferDialect_first_line_utf8_witness :
    inferDialect demoEnv ⟨"cwutils.datasets.data", "iris.csv"⟩
      = sniff (firstLine irisCsv)
    ∧ inferDialect demoEnv ⟨"cwutils.datasets.data", "iris.csv"⟩
      = inferDialect demoEnv ⟨"cwutils.datasets.data", "iris.csv"⟩ :=
  inferDialect_first_line_utf8 demoEnv demoEnv
    ⟨"cwutils.datasets.data", "iris.csv"⟩ irisCsv irisCsv rfl rfl rfl

/-- Witness for the amended C8 on the demo environment's description. -/
theorem loadCsvData_descr_raw_read_witness :
    loadCsvData demoEnv "iris.csv" PyVal.pynone
        (PyVal.pystr "cwutils.datasets.data") (Option.some "iris.rst")
        (PyVal.pystr "cwutils.datasets.descr") false "utf-8"
      = Except.ok (.tableDescr irisDf "Iris dataset description") :=
  loadCsvData_descr_raw_read demoEnv "iris.csv"
    (PyVal.pystr "cwutils.datasets.data")
    (PyVal.pystr "cwutils.datasets.descr") "iris.rst" "utf-8"
    ⟨"cwutils.datasets.data", "iris.csv"⟩ ⟨',', dquote, false, false⟩ irisDf
    [("iris.rst", Entry.file [("utf-8", "Iris dataset description")]),
     ("dev.null", Entry.special [("utf-8", "")])]
    rfl rfl rfl rfl

/-- Witness for C10 with `target=None` on the demo environment. -/
theorem loadCsvData_none_target_separate_fails_witness :
    loadCsvData demoEnv "iris.csv" PyVal.pynone
        (PyVal.pystr "cwutils.datasets.data") Option.none
        (PyVal.pystr "cwutils.datasets.descr") true "utf-8"
      = Except.error (Err.keyError
          "Specified target name is not in the columns of the dataset.") :=
  loadCsvData_none_target_separate_fails demoEnv "iris.csv"
    (PyVal.pystr "cwutils.datasets.data") Option.none
    (PyVal.pystr "cwutils.datasets.descr") "utf-8"
    ⟨"cwutils.datasets.data", "iris.csv"⟩ ⟨',', dquote, false, false⟩ irisDf rfl rfl rfl

end Cwutils
